import Mathlib

/-!
# Verification of the Decypharr download client

A shallow embedding of `src/media_manager/torrent/decypharr.py`
(`DecypharrDownloadClient`), a synchronous HTTP client bridging a media
manager to a QBittorrent-compatible remote torrent service.

Modelling conventions:
* Python exceptions become `Except DecypharrError` results; each distinct
  `raise` site in the source becomes its own constructor carrying the same
  message data the Python code formats into its `RuntimeError`.
* The network (the `requests` session) is an oracle `Net : SentRequest →
  RequestOutcome`: each HTTP call either yields a response or raises a
  transport exception (`requests.RequestException`) with a message.
* `response.json()` is modelled by the `json : Option Json` field of
  `HttpResponse`: `none` is a parse failure (`ValueError`), `some j` the
  parsed document.
* Python truthiness on optional strings (`if self._cookie`, `x or "movies"`)
  is modelled explicitly: `none` and `some ""` are falsy.
* Each client method returns an `OpResult`: its value (or error), the client
  state after the call, and the list of HTTP requests it dispatched.
-/

namespace Decypharr

/-- The caller's canonical status enumeration (`TorrentStatus`). -/
inductive TorrentStatus where
  | unknown
  | downloading
  | finished
  | error
deriving DecidableEq, Repr

/-- The caller-visible acquisition record (`Torrent`). -/
structure Torrent where
  status : TorrentStatus
  title : String
  quality : String
  imported : Bool
  hash : String
deriving DecidableEq, Repr

/-- A query result from the indexer (`IndexerQueryResult`): the fields
`download_torrent` reads. -/
structure IndexerQueryResult where
  title : String
  quality : String
  download_url : String
deriving DecidableEq, Repr

/-- The Decypharr section of the configuration
(`MediaManagerConfig().torrents.decypharr`). Optional strings model Python
values that may be `None`. -/
structure DecypharrConfig where
  base_url : String
  username : Option String
  password : Option String
  category_name : Option String
  category_save_path : Option String
deriving DecidableEq, Repr

/-- Python truthiness of an optional string: `None` and `""` are falsy. -/
def truthyStr : Option String → Bool
  | none => false
  | some s => s ≠ ""

/-- Python `x or d` for `x` an optional string: `d` when `x` is falsy. -/
def pyOr (x : Option String) (d : String) : String :=
  match x with
  | none => d
  | some s => if s = "" then d else s

/-- Python `s.rstrip('/')`: drop trailing `'/'` characters. -/
def rstripSlashes (s : String) : String :=
  String.mk ((s.toList.reverse.dropWhile (· = '/')).reverse)

/-- Python `s.strip()`: drop whitespace from both ends. -/
def pyStrip (s : String) : String :=
  String.mk
    (((s.toList.dropWhile Char.isWhitespace).reverse.dropWhile
        Char.isWhitespace).reverse)

/-- A JSON document, as `response.json()` returns it. -/
inductive Json where
  | null
  | bool (b : Bool)
  | num (n : Int)
  | str (s : String)
  | arr (elems : List Json)
  | obj (fields : List (String × Json))

/-- Python truthiness of a parsed JSON value (`if not torrents`). -/
def Json.falsy : Json → Bool
  | .null => true
  | .bool b => !b
  | .num n => n == 0
  | .str s => s == ""
  | .arr xs => xs.isEmpty
  | .obj fs => fs.isEmpty

/-- An HTTP response as the client observes it: status code, raw body text,
response cookies, and the outcome of `response.json()` (`none` = the body
does not parse; `ValueError`). -/
structure HttpResponse where
  status_code : Nat
  text : String
  cookies : List (String × String)
  json : Option Json

/-- One HTTP request as the client hands it to the `requests` session. -/
structure SentRequest where
  method : String
  url : String
  params : List (String × String)
  data : List (String × String)
  cookies : Option (List (String × String))
deriving DecidableEq, Repr

/-- What one call of the `requests` session does: return a response, or raise
a `requests.RequestException` carrying a message. -/
inductive RequestOutcome where
  | response (r : HttpResponse)
  | exn (e : String)

/-- The network oracle: the behaviour of the remote service plus transport
for each request the client might send. -/
abbrev Net : Type := SentRequest → RequestOutcome

/-- The client's error vocabulary: one constructor per distinct `raise` site,
carrying the data the Python code formats into the `RuntimeError` message.
The spec's taxonomy names them `AuthenticationError`, `AuthorizationError`,
`RemoteServiceError`, `TransportError`, `SubmissionError`; `pyError` stands
for an uncaught Python-level exception (e.g. `torrents[0]` on a non-list). -/
inductive DecypharrError where
  | authenticationError (msg : String)
  | authorizationError (msg : String)
  | remoteServiceError (statusCode : Nat) (body : String)
  | transportError (msg : String)
  | submissionError (msg : String)
  | pyError (msg : String)
deriving DecidableEq, Repr

/-- The client's connection context: everything `__init__` stores on `self`.
-/
structure ClientState where
  base_url : String
  timeout : Nat
  cookie : Option String
  config : DecypharrConfig
deriving DecidableEq, Repr

/-- The result of one client method call: its return value or raised error,
the client state when the call finishes, and the HTTP requests dispatched. -/
structure OpResult (α : Type) where
  result : Except DecypharrError α
  state : ClientState
  sent : List SentRequest

/-- `DOWNLOADING_STATE` (decypharr.py lines 38-50). -/
def DOWNLOADING_STATE : List String :=
  ["allocating", "downloading", "metaDL", "pausedDL", "queuedDL",
   "stalledDL", "checkingDL", "forcedDL", "moving", "stoppedDL",
   "forcedMetaDL"]

/-- `FINISHED_STATE` (decypharr.py lines 51-60). -/
def FINISHED_STATE : List String :=
  ["uploading", "pausedUP", "queuedUP", "stalledUP", "checkingUP",
   "forcedUP", "stoppedUP", "completed"]

/-- `ERROR_STATE` (decypharr.py line 61). -/
def ERROR_STATE : List String := ["missingFiles", "error", "checkingResumeData"]

/-- `UNKNOWN_STATE` (decypharr.py line 62). -/
def UNKNOWN_STATE : List String := ["unknown"]

/-- Python `state in TUPLE` where `state` is the parsed JSON value taken from
the info entry: equality against each string in the tuple, false for any
non-string value. -/
def stateMem (state : Json) (labels : List String) : Bool :=
  match state with
  | .str s => labels.contains s
  | _ => false

/-- The state-mapping chain of `get_torrent_status` (decypharr.py lines
275-285): membership tests against the four state tuples, in order, with
`unknown` as the fallthrough. -/
def resolveState (state : Json) : TorrentStatus :=
  if stateMem state DOWNLOADING_STATE then .downloading
  else if stateMem state FINISHED_STATE then .finished
  else if stateMem state ERROR_STATE then .error
  else if stateMem state UNKNOWN_STATE then .unknown
  else .unknown

/-- The state `__init__` builds before any authentication attempt:
`base_url` with trailing slashes stripped, timeout 30, no cookie. -/
def initialState (config : DecypharrConfig) : ClientState :=
  { base_url := rstripSlashes config.base_url
    timeout := 30
    cookie := none
    config := config }

/-- The login request `_authenticate` posts (decypharr.py lines 83-90):
form-encoded credentials, no cookie attached. -/
def loginRequest (st : ClientState) : SentRequest :=
  { method := "POST"
    url := st.base_url ++ "/api/v2/auth/login"
    params := []
    data := [("username", st.config.username.getD ""),
             ("password", st.config.password.getD "")]
    cookies := none }

/-- `_authenticate` (decypharr.py lines 81-105). A 403 login response and a
non-200 login response raise with their own messages (the `RuntimeError`s
are not `requests.RequestException`s, so the `except` clause does not touch
them); a transport failure is wrapped; on 200 the `SID` response cookie, if
present, is stored. Returns the updated state and the request sent. -/
def authenticate (st : ClientState) (net : Net) :
    Except DecypharrError ClientState :=
  match net (loginRequest st) with
  | .exn e =>
      .error (.authenticationError ("Decypharr authentication failed: " ++ e))
  | .response r =>
      if r.status_code = 403 then
        .error (.authenticationError "Invalid Decypharr username or password")
      else if r.status_code ≠ 200 then
        .error (.authenticationError ("Authentication failed: " ++ r.text))
      else
        match r.cookies.lookup "SID" with
        | some sid => .ok { st with cookie := some sid }
        | none => .ok st

/-- `__init__` (decypharr.py lines 64-79): build the connection context and,
when both username and password are truthy, run the single authentication
exchange (`_authenticate` sends exactly one request). Returns the
constructed state (or the construction-time error) and the requests
dispatched during construction. -/
def init (config : DecypharrConfig) (net : Net) :
    Except DecypharrError ClientState × List SentRequest :=
  let st := initialState config
  if truthyStr config.username && truthyStr config.password then
    (authenticate st net, [loginRequest st])
  else
    (.ok st, [])

/-- The request `_request` builds (decypharr.py lines 126-139): base URL
prepended to the endpoint, and the `SID` cookie attached only when
`self._cookie` is truthy. -/
def buildRequest (st : ClientState) (method endpoint : String)
    (params data : List (String × String)) : SentRequest :=
  { method := method
    url := st.base_url ++ endpoint
    params := params
    data := data
    cookies :=
      match st.cookie with
      | some c => if c = "" then none else some [("SID", c)]
      | none => none }

/-- The error normalization of `_request` (decypharr.py lines 131-154):
status 403 raises the authorization message, any other status ≥ 400 raises
with the status code and body, and a `requests.RequestException` is wrapped
as a transport failure. The `RuntimeError`s raised for 403/≥400 are not
caught by the `except requests.RequestException` clause. -/
def handleOutcome (outcome : RequestOutcome) : Except DecypharrError HttpResponse :=
  match outcome with
  | .exn e => .error (.transportError ("Decypharr request failed: " ++ e))
  | .response r =>
      if r.status_code = 403 then
        .error (.authorizationError "Decypharr authentication required or invalid")
      else if r.status_code ≥ 400 then
        .error (.remoteServiceError r.status_code r.text)
      else
        .ok r

/-- `_request` (decypharr.py lines 107-154): build the request, hand it to
the session, normalize the outcome. Returns the response or the raised
error. Every lifecycle operation below dispatches through this primitive;
each also records the request it sent (`buildRequest` with the same
arguments) in its trace. -/
def request (st : ClientState) (net : Net) (method endpoint : String)
    (params data : List (String × String)) :
    Except DecypharrError HttpResponse :=
  handleOutcome (net (buildRequest st method endpoint params data))

/-- `get_torrent_hash` lives in `media_manager.torrent.utils`, which is not
part of the reviewed sources. Modelled from the spec: the identifier is a
content hash derived deterministically from the source locator (the
magnet-style URL), so we model it as a deterministic injective function of
the locator; no reviewed claim depends on its concrete value. -/
def get_torrent_hash (torrent : IndexerQueryResult) : String :=
  torrent.download_url

/-- The form body of the submission request (decypharr.py lines 182-193):
the locator under `urls`, the configured category name or `"movies"` when
that is falsy, and `savepath` only when the configured save path is truthy.
-/
def addTorrentData (config : DecypharrConfig)
    (indexer_result : IndexerQueryResult) : List (String × String) :=
  let category := pyOr config.category_name "movies"
  let data := [("urls", indexer_result.download_url), ("category", category)]
  match config.category_save_path with
  | some p => if p = "" then data else data ++ [("savepath", p)]
  | none => data

/-- `get_torrent_status` (decypharr.py lines 244-285): GET
`/api/v2/torrents/info` keyed by hash. A dispatch error propagates; a body
that does not parse returns `unknown` (`ValueError` caught); a falsy parsed
document (empty array) returns `unknown`; otherwise the first entry's
`state` field (default `"unknown"` when absent) goes through the mapping
chain. Indexing a parsed document that is not an array, or an entry that is
not an object, raises an uncaught Python error. -/
def get_torrent_status (st : ClientState) (net : Net) (torrent : Torrent) :
    OpResult TorrentStatus :=
  let req := buildRequest st "GET" "/api/v2/torrents/info"
    [("hashes", torrent.hash)] []
  match request st net "GET" "/api/v2/torrents/info" [("hashes", torrent.hash)] [] with
  | .error e => ⟨.error e, st, [req]⟩
  | .ok response =>
      match response.json with
      | none => ⟨.ok .unknown, st, [req]⟩
      | some torrents =>
          if torrents.falsy then ⟨.ok .unknown, st, [req]⟩
          else
            match torrents with
            | .arr (first :: _) =>
                match first with
                | .obj fields =>
                    let state := (fields.lookup "state").getD (.str "unknown")
                    ⟨.ok (resolveState state), st, [req]⟩
                | _ => ⟨.error (.pyError "AttributeError: no attribute get"), st, [req]⟩
            | _ => ⟨.error (.pyError "TypeError: not subscriptable by 0"), st, [req]⟩

/-- `download_torrent` (decypharr.py lines 156-223): POST the submission
form; compare the whitespace-stripped acknowledgment body against `"Ok."`;
on acknowledgment synthesize a `Torrent` with status `unknown` and attempt
one status query to refine it, swallowing any exception that query raises.
-/
def download_torrent (st : ClientState) (net : Net)
    (indexer_result : IndexerQueryResult) : OpResult Torrent :=
  let torrent_hash := get_torrent_hash indexer_result
  let data := addTorrentData st.config indexer_result
  let req := buildRequest st "POST" "/api/v2/torrents/add" [] data
  match request st net "POST" "/api/v2/torrents/add" [] data with
  | .error e => ⟨.error e, st, [req]⟩
  | .ok response =>
      let response_text := pyStrip response.text
      if response_text ≠ "Ok." then
        ⟨.error (.submissionError
            ("Failed to add torrent to Decypharr: " ++ response_text)), st, [req]⟩
      else
        let torrent : Torrent :=
          { status := .unknown
            title := indexer_result.title
            quality := indexer_result.quality
            imported := false
            hash := torrent_hash }
        let statusRes := get_torrent_status st net torrent
        match statusRes.result with
        | .ok s => ⟨.ok { torrent with status := s }, st, req :: statusRes.sent⟩
        | .error _ => ⟨.ok torrent, st, req :: statusRes.sent⟩

/-- `remove_torrent` (decypharr.py lines 225-242): POST the deletion form
keyed by hash with the literal `"true"`/`"false"` delete flag; dispatch
errors propagate. -/
def remove_torrent (st : ClientState) (net : Net) (torrent : Torrent)
    (delete_data : Bool) : OpResult Unit :=
  let data := [("hashes", torrent.hash),
               ("deleteFiles", if delete_data then "true" else "false")]
  let req := buildRequest st "POST" "/api/v2/torrents/delete" [] data
  match request st net "POST" "/api/v2/torrents/delete" [] data with
  | .error e => ⟨.error e, st, [req]⟩
  | .ok _ => ⟨.ok (), st, [req]⟩

/-- `pause_torrent` (decypharr.py lines 287-300). -/
def pause_torrent (st : ClientState) (net : Net) (torrent : Torrent) :
    OpResult Unit :=
  let req := buildRequest st "POST" "/api/v2/torrents/pause" []
    [("hashes", torrent.hash)]
  match request st net "POST" "/api/v2/torrents/pause" [] [("hashes", torrent.hash)] with
  | .error e => ⟨.error e, st, [req]⟩
  | .ok _ => ⟨.ok (), st, [req]⟩

/-- `resume_torrent` (decypharr.py lines 302-315). -/
def resume_torrent (st : ClientState) (net : Net) (torrent : Torrent) :
    OpResult Unit :=
  let req := buildRequest st "POST" "/api/v2/torrents/resume" []
    [("hashes", torrent.hash)]
  match request st net "POST" "/api/v2/torrents/resume" [] [("hashes", torrent.hash)] with
  | .error e => ⟨.error e, st, [req]⟩
  | .ok _ => ⟨.ok (), st, [req]⟩

/-- `get_torrent_files` (decypharr.py lines 317-336): GET keyed by hash;
return the parsed body, or an empty list when it does not parse; dispatch
errors propagate. -/
def get_torrent_files (st : ClientState) (net : Net) (torrent : Torrent) :
    OpResult Json :=
  let req := buildRequest st "GET" "/api/v2/torrents/files"
    [("hash", torrent.hash)] []
  match request st net "GET" "/api/v2/torrents/files" [("hash", torrent.hash)] [] with
  | .error e => ⟨.error e, st, [req]⟩
  | .ok response =>
      match response.json with
      | none => ⟨.ok (.arr []), st, [req]⟩
      | some j => ⟨.ok j, st, [req]⟩

/-- The request `health_check` dispatches. -/
def versionRequest (st : ClientState) : SentRequest :=
  buildRequest st "GET" "/api/v2/app/version" [] []

/-- `health_check` (decypharr.py lines 338-353): GET the version endpoint;
`true` when the dispatch succeeds regardless of the body, `false` when any
exception is raised (`except Exception` catches everything). The result is
always a value, never an error. -/
def health_check (st : ClientState) (net : Net) : OpResult Bool :=
  let req := versionRequest st
  match request st net "GET" "/api/v2/app/version" [] [] with
  | .ok _ => ⟨.ok true, st, [req]⟩
  | .error _ => ⟨.ok false, st, [req]⟩

/-- The status-query request `get_torrent_status` dispatches (the
`buildRequest` of its arguments). -/
def infoRequest (st : ClientState) (torrent : Torrent) : SentRequest :=
  buildRequest st "GET" "/api/v2/torrents/info" [("hashes", torrent.hash)] []

/-- The submission request `download_torrent` posts (the `buildRequest` of
its arguments). -/
def addRequest (st : ClientState) (res : IndexerQueryResult) : SentRequest :=
  buildRequest st "POST" "/api/v2/torrents/add" [] (addTorrentData st.config res)

/-- The record `download_torrent` synthesizes on acknowledged success,
before the refinement status query. -/
def synthTorrent (res : IndexerQueryResult) : Torrent :=
  { status := .unknown
    title := res.title
    quality := res.quality
    imported := false
    hash := get_torrent_hash res }

/-! ## Concrete fixtures for witnesses and counterexamples -/

/-- A configuration without credentials, for concrete evaluations. -/
def cfgTest : DecypharrConfig :=
  { base_url := "http://host:8282"
    username := none
    password := none
    category_name := some "MediaManager"
    category_save_path := none }

/-- A configuration with credentials, for authentication scenarios. -/
def cfgAuth : DecypharrConfig :=
  { base_url := "http://host:8282/"
    username := some "alice"
    password := some "secret"
    category_name := none
    category_save_path := none }

/-- The unauthenticated client state built from `cfgTest`. -/
def stTest : ClientState := initialState cfgTest

/-- A concrete indexer result. -/
def resTest : IndexerQueryResult :=
  { title := "Example Movie"
    quality := "1080p"
    download_url := "magnet-example-movie" }

/-- A concrete acquisition record. -/
def torTest : Torrent :=
  { status := .unknown
    title := "Example Movie"
    quality := "1080p"
    imported := false
    hash := "magnet-example-movie" }

/-- A network where every call raises a transport exception. -/
def netConnRefused : Net := fun _ => .exn "connection refused"

/-- A network that answers 403 to every request. -/
def netForbidden : Net := fun _ => .response ⟨403, "forbidden", [], none⟩

/-- A network that answers 500 with body `"boom"` to every request. -/
def netErr500 : Net := fun _ => .response ⟨500, "boom", [], none⟩

/-- A network that answers 200 with a plain-text body to every request. -/
def netOkText : Net := fun _ => .response ⟨200, "4.3.9", [], none⟩

/-- A network that answers 200 with body `"Ok.\n"` (not an exact `"Ok."`,
and not valid JSON) to every request. -/
def netOkNewline : Net := fun _ => .response ⟨200, "Ok.\n", [], none⟩

/-- A network that answers 200 with no cookies to every request (a login
without an `SID` cookie). -/
def netLoginNoSid : Net := fun _ => .response ⟨200, "", [], none⟩

/-- A network where the submission POST is acknowledged with `"Ok."` but the
status GET raises a transport exception. -/
def netAddOkStatusFail : Net := fun req =>
  if req.method = "POST" then .response ⟨200, "Ok.", [], none⟩
  else .exn "timeout"

/-- A network that answers 200 with an empty JSON array to every request. -/
def netEmptyArr : Net := fun _ => .response ⟨200, "[]", [], some (.arr [])⟩

/-- A network that answers 200 with body `"Fails."` to every request. -/
def netErr200Fails : Net := fun _ => .response ⟨200, "Fails.", [], none⟩

/-- A configuration with a save path and no category name. -/
def cfgSave : DecypharrConfig :=
  { base_url := "http://host:8282"
    username := none
    password := none
    category_name := none
    category_save_path := some "/mnt/media" }

/-! ## Helper lemmas -/

/-- Membership of a JSON string in a tuple of labels is list membership. -/
theorem stateMem_str (s : String) (L : List String) :
    stateMem (Json.str s) L = decide (s ∈ L) := by
  simp [stateMem, List.contains]

/-! ## Claims -/

/-- C1: status resolution is a total pure function on remote state labels:
every label of the downloading tuple maps to `downloading`, every label of
the finished tuple to `finished`, every label of the error tuple to
`error`, and `"unknown"` or any label outside all three tuples to
`unknown`; being a Lean function, it never raises. -/
theorem state_mapping_total (label : String) :
    (label ∈ DOWNLOADING_STATE → resolveState (.str label) = .downloading) ∧
    (label ∈ FINISHED_STATE → resolveState (.str label) = .finished) ∧
    (label ∈ ERROR_STATE → resolveState (.str label) = .error) ∧
    (label = "unknown" ∨
        (label ∉ DOWNLOADING_STATE ∧ label ∉ FINISHED_STATE ∧
          label ∉ ERROR_STATE) →
      resolveState (.str label) = .unknown) := by
  refine ⟨?_, ?_, ?_, ?_⟩
  · intro h
    fin_cases h <;> decide
  · intro h
    fin_cases h <;> decide
  · intro h
    fin_cases h <;> decide
  · rintro (rfl | ⟨h1, h2, h3⟩)
    · decide
    · simp [resolveState, stateMem_str, h1, h2, h3]

/-- Witness for C1 at concrete labels from each bucket. -/
theorem state_mapping_total_witness :
    resolveState (.str "pausedDL") = .downloading ∧
    resolveState (.str "completed") = .finished ∧
    resolveState (.str "missingFiles") = .error ∧
    resolveState (.str "weirdLabel") = .unknown :=
  ⟨(state_mapping_total "pausedDL").1 (by decide),
   (state_mapping_total "completed").2.1 (by decide),
   (state_mapping_total "missingFiles").2.2.1 (by decide),
   (state_mapping_total "weirdLabel").2.2.2
     (Or.inr ⟨by decide, by decide, by decide⟩)⟩

/-- C4: the dispatch primitive normalizes failures into three
distinguishable outcomes: a 403 response raises the authorization error,
any other response with status ≥ 400 raises the remote-service error
carrying the status code and body, and a transport failure raises the
transport error wrapping the cause; the three error values are pairwise
distinct. -/
theorem request_error_taxonomy (st : ClientState) (net : Net)
    (method endpoint : String) (params data : List (String × String)) :
    (∀ r, net (buildRequest st method endpoint params data) = .response r →
        r.status_code = 403 →
        request st net method endpoint params data =
          .error (.authorizationError "Decypharr authentication required or invalid")) ∧
    (∀ r, net (buildRequest st method endpoint params data) = .response r →
        r.status_code ≠ 403 → 400 ≤ r.status_code →
        request st net method endpoint params data =
          .error (.remoteServiceError r.status_code r.text)) ∧
    (∀ e, net (buildRequest st method endpoint params data) = .exn e →
        request st net method endpoint params data =
          .error (.transportError ("Decypharr request failed: " ++ e))) ∧
    (∀ m c b, DecypharrError.authorizationError m ≠ .remoteServiceError c b) ∧
    (∀ m m2, DecypharrError.authorizationError m ≠ .transportError m2) ∧
    (∀ c b m, DecypharrError.remoteServiceError c b ≠ .transportError m) := by
  refine ⟨?_, ?_, ?_, ?_, ?_, ?_⟩
  · intro r hr h403
    simp [request, handleOutcome, hr, h403]
  · intro r hr h403 hge
    simp [request, handleOutcome, hr, h403, hge]
  · intro e he
    simp [request, handleOutcome, he]
  · intro m c b
    simp
  · intro m m2
    simp
  · intro c b m
    simp

/-- Witness for C4: the three dispatch failures at concrete inputs. -/
theorem request_error_taxonomy_witness :
    request stTest netForbidden "GET" "/api/v2/app/version" [] [] =
      .error (.authorizationError "Decypharr authentication required or invalid") ∧
    request stTest netErr500 "GET" "/api/v2/app/version" [] [] =
      .error (.remoteServiceError 500 "boom") ∧
    request stTest netConnRefused "GET" "/api/v2/app/version" [] [] =
      .error (.transportError "Decypharr request failed: connection refused") :=
  ⟨(request_error_taxonomy stTest netForbidden "GET" "/api/v2/app/version" [] []).1
      ⟨403, "forbidden", [], none⟩ rfl rfl,
   (request_error_taxonomy stTest netErr500 "GET" "/api/v2/app/version" [] []).2.1
      ⟨500, "boom", [], none⟩ rfl (by decide) (by decide),
   (request_error_taxonomy stTest netConnRefused "GET" "/api/v2/app/version" [] []).2.2.1
      "connection refused" rfl⟩

/-- C5: with credentials present, a forbidden (403) login response makes
construction fail with the authentication error — no usable client state is
produced — and construction dispatches exactly the one login request, with
no retry, whatever the network does. -/
theorem auth_forbidden_fatal (config : DecypharrConfig) (net : Net)
    (r : HttpResponse)
    (hu : truthyStr config.username = true)
    (hp : truthyStr config.password = true)
    (hr : net (loginRequest (initialState config)) = .response r)
    (h403 : r.status_code = 403) :
    (init config net).1 =
      .error (.authenticationError "Invalid Decypharr username or password") ∧
    (init config net).2 = [loginRequest (initialState config)] ∧
    ∀ net2 : Net, (init config net2).2 = [loginRequest (initialState config)] := by
  refine ⟨?_, ?_, ?_⟩
  · simp [init, hu, hp, authenticate, hr, h403]
  · simp [init, hu, hp]
  · intro net2
    simp [init, hu, hp]

/-- Witness for C5: a concrete credentialed configuration against a network
that answers 403 to the login. -/
theorem auth_forbidden_fatal_witness :
    (init cfgAuth netForbidden).1 =
      .error (.authenticationError "Invalid Decypharr username or password") ∧
    (init cfgAuth netForbidden).2 = [loginRequest (initialState cfgAuth)] :=
  ⟨(auth_forbidden_fatal cfgAuth netForbidden ⟨403, "forbidden", [], none⟩
      (by decide) (by decide) rfl rfl).1,
   (auth_forbidden_fatal cfgAuth netForbidden ⟨403, "forbidden", [], none⟩
      (by decide) (by decide) rfl rfl).2.1⟩

/-- C10: a 200 login response that carries no `SID` cookie lets
construction succeed with no session token captured, and every request the
resulting client builds is dispatched with no cookies attached. -/
theorem login_without_sid_cookie (config : DecypharrConfig) (net : Net)
    (r : HttpResponse)
    (hu : truthyStr config.username = true)
    (hp : truthyStr config.password = true)
    (hr : net (loginRequest (initialState config)) = .response r)
    (h200 : r.status_code = 200)
    (hsid : r.cookies.lookup "SID" = none) :
    (init config net).1 = .ok (initialState config) ∧
    (initialState config).cookie = none ∧
    ∀ method endpoint params data,
      (buildRequest (initialState config) method endpoint params data).cookies =
        none := by
  refine ⟨?_, rfl, ?_⟩
  · simp [init, hu, hp, authenticate, hr, h200, hsid]
  · intro method endpoint params data
    simp [buildRequest, initialState]

/-- Witness for C10: a concrete credentialed configuration against a network
whose login response is 200 with no cookies. -/
theorem login_without_sid_cookie_witness :
    (init cfgAuth netLoginNoSid).1 = .ok (initialState cfgAuth) ∧
    (buildRequest (initialState cfgAuth) "GET" "/api/v2/torrents/info"
        [] []).cookies = none :=
  ⟨(login_without_sid_cookie cfgAuth netLoginNoSid ⟨200, "", [], none⟩
      (by decide) (by decide) rfl rfl rfl).1,
   (login_without_sid_cookie cfgAuth netLoginNoSid ⟨200, "", [], none⟩
      (by decide) (by decide) rfl rfl rfl).2.2 "GET" "/api/v2/torrents/info" [] []⟩

/-- C7: the health check never raises: it always produces a boolean; any
response the dispatch layer handles successfully (status below 400) yields
`true` regardless of the body, and any internally raised exception — a
transport failure or an error status — yields `false`. -/
theorem health_check_total (st : ClientState) (net : Net) :
    (∃ b, (health_check st net).result = .ok b) ∧
    (∀ r, net (versionRequest st) = .response r → r.status_code < 400 →
        (health_check st net).result = .ok true) ∧
    (∀ r, net (versionRequest st) = .response r → 400 ≤ r.status_code →
        (health_check st net).result = .ok false) ∧
    (∀ e, net (versionRequest st) = .exn e →
        (health_check st net).result = .ok false) := by
  refine ⟨?_, ?_, ?_, ?_⟩
  · cases hn : net (versionRequest st) with
    | response r =>
        by_cases h403 : r.status_code = 403
        · exact ⟨false, by
            simp only [versionRequest] at hn
            simp [health_check, request, handleOutcome, hn, h403]⟩
        · by_cases hge : 400 ≤ r.status_code
          · exact ⟨false, by
              simp only [versionRequest] at hn
              simp [health_check, request, handleOutcome, hn, h403, hge]⟩
          · exact ⟨true, by
              simp only [versionRequest] at hn
              simp [health_check, request, handleOutcome, hn, h403, hge]⟩
    | exn e =>
        exact ⟨false, by
          simp only [versionRequest] at hn
          simp [health_check, request, handleOutcome, hn]⟩
  · intro r hn hlt
    have h403 : r.status_code ≠ 403 := by omega
    have hge : ¬ 400 ≤ r.status_code := by omega
    simp only [versionRequest] at hn
    simp [health_check, request, handleOutcome, hn, h403, hge]
  · intro r hn hge
    simp only [versionRequest] at hn
    by_cases h403 : r.status_code = 403 <;>
      simp [health_check, request, handleOutcome, hn, h403, hge]
  · intro e hn
    simp only [versionRequest] at hn
    simp [health_check, request, handleOutcome, hn]

/-- Witness for C7 at three concrete networks: a plain-text success, a 500
response, and a transport failure. -/
theorem health_check_total_witness :
    (health_check stTest netOkText).result = .ok true ∧
    (health_check stTest netErr500).result = .ok false ∧
    (health_check stTest netConnRefused).result = .ok false :=
  ⟨(health_check_total stTest netOkText).2.1 ⟨200, "4.3.9", [], none⟩ rfl
      (by decide),
   (health_check_total stTest netErr500).2.2.1 ⟨500, "boom", [], none⟩ rfl
      (by decide),
   (health_check_total stTest netConnRefused).2.2.2 "connection refused" rfl⟩

/-- C3 counterexample: the status query is not total for the caller — a
transport failure during its dispatch propagates as an exception instead of
degrading to the `unknown` sentinel. -/
theorem status_query_total_counterexample :
    (get_torrent_status stTest netConnRefused torTest).result =
      .error (.transportError "Decypharr request failed: connection refused") ∧
    (get_torrent_status stTest netConnRefused torTest).result ≠
      .ok TorrentStatus.unknown := by
  refine ⟨rfl, ?_⟩
  intro h
  exact Except.noConfusion h

/-- C3 (amended): the status query degrades an unparsable response body and
an empty result set to the `unknown` sentinel without raising; a
dispatch-layer or transport error, however, propagates to the caller as an
exception — a 403 response as the authorization error, any other response
with status ≥ 400 as the remote-service error, and a transport failure as
the transport error. -/
theorem status_query_degradation (st : ClientState) (net : Net) (t : Torrent) :
    (∀ r, net (infoRequest st t) = .response r → r.status_code < 400 →
        r.json = none →
        (get_torrent_status st net t).result = .ok .unknown) ∧
    (∀ r j, net (infoRequest st t) = .response r → r.status_code < 400 →
        r.json = some j → j.falsy = true →
        (get_torrent_status st net t).result = .ok .unknown) ∧
    (∀ r, net (infoRequest st t) = .response r → r.status_code = 403 →
        (get_torrent_status st net t).result =
          .error (.authorizationError
            "Decypharr authentication required or invalid")) ∧
    (∀ r, net (infoRequest st t) = .response r → r.status_code ≠ 403 →
        400 ≤ r.status_code →
        (get_torrent_status st net t).result =
          .error (.remoteServiceError r.status_code r.text)) ∧
    (∀ e, net (infoRequest st t) = .exn e →
        (get_torrent_status st net t).result =
          .error (.transportError ("Decypharr request failed: " ++ e))) := by
  refine ⟨?_, ?_, ?_, ?_, ?_⟩
  · intro r hn hlt hjson
    have h403 : r.status_code ≠ 403 := by omega
    have hge : ¬ 400 ≤ r.status_code := by omega
    simp only [infoRequest] at hn
    simp [get_torrent_status, request, handleOutcome, hn, h403, hge, hjson]
  · intro r j hn hlt hjson hfalsy
    have h403 : r.status_code ≠ 403 := by omega
    have hge : ¬ 400 ≤ r.status_code := by omega
    simp only [infoRequest] at hn
    simp [get_torrent_status, request, handleOutcome, hn, h403, hge, hjson,
      hfalsy]
  · intro r hn h403
    simp only [infoRequest] at hn
    simp [get_torrent_status, request, handleOutcome, hn, h403]
  · intro r hn h403 hge
    simp only [infoRequest] at hn
    simp [get_torrent_status, request, handleOutcome, hn, h403, hge]
  · intro e hn
    simp only [infoRequest] at hn
    simp [get_torrent_status, request, handleOutcome, hn]

/-- Witness for C3 (amended): an unparsable body and an empty result set
both yield the sentinel, while a 403 response, a 500 response and a
transport failure each propagate as their error. -/
theorem status_query_degradation_witness :
    (get_torrent_status stTest netOkNewline torTest).result = .ok .unknown ∧
    (get_torrent_status stTest netEmptyArr torTest).result = .ok .unknown ∧
    (get_torrent_status stTest netForbidden torTest).result =
      .error (.authorizationError
        "Decypharr authentication required or invalid") ∧
    (get_torrent_status stTest netErr500 torTest).result =
      .error (.remoteServiceError 500 "boom") :=
  ⟨(status_query_degradation stTest netOkNewline torTest).1
      ⟨200, "Ok.\n", [], none⟩ rfl (by decide) rfl,
   (status_query_degradation stTest netEmptyArr torTest).2.1
      ⟨200, "[]", [], some (.arr [])⟩ (.arr []) rfl (by decide) rfl rfl,
   (status_query_degradation stTest netForbidden torTest).2.2.1
      ⟨403, "forbidden", [], none⟩ rfl rfl,
   (status_query_degradation stTest netErr500 torTest).2.2.2.1
      ⟨500, "boom", [], none⟩ rfl (by decide) (by decide)⟩

/-- How `download_torrent` resolves once its submission POST has received a
dispatch-successful response: the stripped-body comparison, then the
refinement query whose failure is swallowed. -/
theorem download_torrent_result (st : ClientState) (net : Net)
    (res : IndexerQueryResult) (r : HttpResponse)
    (hr : net (addRequest st res) = .response r)
    (h403 : r.status_code ≠ 403) (hge : ¬ 400 ≤ r.status_code) :
    (download_torrent st net res).result =
      if pyStrip r.text ≠ "Ok." then
        .error (.submissionError
          ("Failed to add torrent to Decypharr: " ++ pyStrip r.text))
      else
        match (get_torrent_status st net (synthTorrent res)).result with
        | .ok s => .ok { synthTorrent res with status := s }
        | .error _ => .ok (synthTorrent res) := by
  simp only [addRequest] at hr
  simp [download_torrent, request, handleOutcome, hr, h403, hge, synthTorrent,
    get_torrent_hash]
  split
  · split <;> rfl
  · rfl

/-- C2 counterexample: the acknowledgment comparison is on the
whitespace-stripped body, not an exact match on the raw body — a submission
whose response body is `"Ok.\n"` (which is not exactly `"Ok."`) returns a
record instead of raising. -/
theorem submission_exact_match_counterexample :
    netOkNewline (addRequest stTest resTest) = .response ⟨200, "Ok.\n", [], none⟩ ∧
    "Ok.\n" ≠ "Ok." ∧
    (download_torrent stTest netOkNewline resTest).result =
      .ok (synthTorrent resTest) :=
  ⟨rfl, by decide, rfl⟩

/-- C2 (amended): the acknowledgment is decided on the whitespace-stripped
response body: a dispatch-successful submission response whose stripped
body equals `"Ok."` returns a record with the identifier populated; any
other stripped body raises the submission error and returns no record. -/
theorem submission_ack_stripped (st : ClientState) (net : Net)
    (res : IndexerQueryResult) (r : HttpResponse)
    (hr : net (addRequest st res) = .response r)
    (hcode : r.status_code < 400) :
    (pyStrip r.text = "Ok." →
      ∃ t, (download_torrent st net res).result = .ok t ∧
        t.hash = get_torrent_hash res ∧ t.title = res.title ∧
        t.quality = res.quality) ∧
    (pyStrip r.text ≠ "Ok." →
      (download_torrent st net res).result =
        .error (.submissionError
          ("Failed to add torrent to Decypharr: " ++ pyStrip r.text))) := by
  have key := download_torrent_result st net res r hr (by omega) (by omega)
  constructor
  · intro hok
    rw [key, if_neg (by simp [hok])]
    cases hs : (get_torrent_status st net (synthTorrent res)).result with
    | ok s =>
        simp only [hs]
        exact ⟨{ synthTorrent res with status := s }, rfl, rfl, rfl, rfl⟩
    | error e =>
        simp only [hs]
        exact ⟨synthTorrent res, rfl, rfl, rfl, rfl⟩
  · intro hne
    rw [key, if_pos hne]

/-- Witness for C2 (amended): an exact `"Ok."` body succeeds with the
identifier populated, and a `"Fails."` body raises the submission error. -/
theorem submission_ack_stripped_witness :
    (∃ t, (download_torrent stTest netAddOkStatusFail resTest).result = .ok t ∧
      t.hash = get_torrent_hash resTest ∧ t.title = resTest.title ∧
      t.quality = resTest.quality) ∧
    (download_torrent stTest netErr200Fails resTest).result =
      .error (.submissionError "Failed to add torrent to Decypharr: Fails.") :=
  ⟨(submission_ack_stripped stTest netAddOkStatusFail resTest
      ⟨200, "Ok.", [], none⟩ rfl (by decide)).1 (by decide),
   (submission_ack_stripped stTest netErr200Fails resTest
      ⟨200, "Fails.", [], none⟩ rfl (by decide)).2 (by decide)⟩

/-- C6: when the submission has been acknowledged, a failure of the
immediately-following refinement status query is swallowed: `download_torrent`
still returns the synthesized record with status `unknown`. -/
theorem refinement_failure_nonfatal (st : ClientState) (net : Net)
    (res : IndexerQueryResult) (r : HttpResponse) (e : DecypharrError)
    (hr : net (addRequest st res) = .response r)
    (hcode : r.status_code < 400)
    (hok : pyStrip r.text = "Ok.")
    (hfail : (get_torrent_status st net (synthTorrent res)).result = .error e) :
    (download_torrent st net res).result = .ok (synthTorrent res) := by
  rw [download_torrent_result st net res r hr (by omega) (by omega),
    if_neg (by simp [hok]), hfail]

/-- Witness for C6: the submission is acknowledged but the refinement query
hits a transport failure; the record still comes back with status
`unknown`. -/
theorem refinement_failure_nonfatal_witness :
    (download_torrent stTest netAddOkStatusFail resTest).result =
      .ok (synthTorrent resTest) :=
  refinement_failure_nonfatal stTest netAddOkStatusFail resTest
    ⟨200, "Ok.", [], none⟩
    (.transportError "Decypharr request failed: timeout")
    rfl (by decide) (by decide) rfl

/-- C8: the submission form body carries the source locator under `urls`
and a category label — the configured name, or the default `"movies"` when
the configured name is unset (`None` or empty) — and the save-path field is
included exactly when the configured save path is non-empty. -/
theorem submission_form_contents (config : DecypharrConfig)
    (res : IndexerQueryResult) :
    ("urls", res.download_url) ∈ addTorrentData config res ∧
    (config.category_name = none ∨ config.category_name = some "" →
      ("category", "movies") ∈ addTorrentData config res) ∧
    (∀ c, config.category_name = some c → c ≠ "" →
      ("category", c) ∈ addTorrentData config res) ∧
    (∀ p, ("savepath", p) ∈ addTorrentData config res ↔
      config.category_save_path = some p ∧ p ≠ "") := by
  refine ⟨?_, ?_, ?_, ?_⟩
  · cases h : config.category_save_path with
    | none => simp [addTorrentData, h]
    | some q => by_cases hq : q = "" <;> simp [addTorrentData, h, hq]
  · intro hname
    have hcat : pyOr config.category_name "movies" = "movies" := by
      rcases hname with h | h <;> simp [pyOr, h]
    cases h : config.category_save_path with
    | none => simp [addTorrentData, h, hcat]
    | some q => by_cases hq : q = "" <;> simp [addTorrentData, h, hq, hcat]
  · intro c hc hne
    have hcat : pyOr config.category_name "movies" = c := by
      simp [pyOr, hc, hne]
    cases h : config.category_save_path with
    | none => simp [addTorrentData, h, hcat]
    | some q => by_cases hq : q = "" <;> simp [addTorrentData, h, hq, hcat]
  · intro p
    cases h : config.category_save_path with
    | none => simp [addTorrentData, h]
    | some q =>
        by_cases hq : q = ""
        · simp only [addTorrentData, h, hq, if_pos]
          simp
          exact fun hp => hp.symm
        · constructor
          · intro hmem
            simp [addTorrentData, h, hq] at hmem
            exact ⟨by simp [h, hmem], by simp [hmem, hq]⟩
          · rintro ⟨hsp, hp⟩
            have hqp : q = p := by simpa using hsp
            simp [addTorrentData, h, hqp, hp]

/-- Witness for C8: with no category name and a save path configured, the
form carries the locator, the default category, and the save path. -/
theorem submission_form_contents_witness :
    ("urls", "magnet-example-movie") ∈ addTorrentData cfgSave resTest ∧
    ("category", "movies") ∈ addTorrentData cfgSave resTest ∧
    ("savepath", "/mnt/media") ∈ addTorrentData cfgSave resTest :=
  ⟨(submission_form_contents cfgSave resTest).1,
   (submission_form_contents cfgSave resTest).2.1 (Or.inl rfl),
   ((submission_form_contents cfgSave resTest).2.2.2 "/mnt/media").2
      ⟨rfl, by decide⟩⟩

/-- C9: every lifecycle operation leaves the client's connection context —
base endpoint, session token, timeout, configuration — exactly as it was,
and retains no remote lifecycle state in the client. -/
theorem client_connection_context_unchanged (st : ClientState) (net : Net)
    (res : IndexerQueryResult) (t : Torrent) (b : Bool) :
    (download_torrent st net res).state = st ∧
    (remove_torrent st net t b).state = st ∧
    (get_torrent_status st net t).state = st ∧
    (pause_torrent st net t).state = st ∧
    (resume_torrent st net t).state = st ∧
    (get_torrent_files st net t).state = st ∧
    (health_check st net).state = st := by
  refine ⟨?_, ?_, ?_, ?_, ?_, ?_, ?_⟩ <;>
    · simp only [download_torrent, remove_torrent, get_torrent_status,
        pause_torrent, resume_torrent, get_torrent_files, health_check]
      repeat' split
      all_goals rfl

end Decypharr
